import Mathlib

/-!
Verification of the application package upload and provisioning pipeline of
`sfctl` (`src/sfctl/custom_app.py`), as a shallow embedding in Lean.

Strings from the Python code are modelled as Lean `String`s; the Python
string primitives the code relies on (`in`, `str.split(sep)[1]`,
`str.replace(old, '')`, `str.lstrip(os.sep)`, `os.path.join`,
`os.path.basename`) are implemented below as structurally recursive
functions over `List Char` so that every model evaluates inside the kernel.
POSIX path semantics are assumed throughout (separators are `/`, as on the
platforms the CLI targets other than Windows; the `.replace('\\', '/')`
normalization in the source is the identity there).
-/

namespace Sfctl

/-- If `pat` is a leading pattern of `l`, return the remainder of `l` after
it.  Models the anchored comparison every Python substring primitive below
is built from. -/
def matchHead : List Char → List Char → Option (List Char)
  | [], l => some l
  | _ :: _, [] => none
  | p :: ps, c :: cs => if p = c then matchHead ps cs else none

/-- Python `pat in s` on character lists: `pat` occurs somewhere in `l`. -/
def containsL (pat : List Char) : List Char → Bool
  | [] => (matchHead pat []).isSome
  | c :: cs => (matchHead pat (c :: cs)).isSome || containsL pat cs

/-- The suffix of `l` strictly after the first occurrence of `pat`
(`none` when `pat` does not occur). -/
def afterFirst (pat : List Char) : List Char → Option (List Char)
  | [] => matchHead pat []
  | c :: cs =>
    match matchHead pat (c :: cs) with
    | some rest => some rest
    | none => afterFirst pat cs

/-- The chunk of `l` before the next occurrence of `pat` (all of `l` when
`pat` does not occur). -/
def upToNext (pat : List Char) : List Char → List Char
  | [] => []
  | c :: cs => if (matchHead pat (c :: cs)).isSome then [] else c :: upToNext pat cs

/-- Python `l.split(pat)[1]`: the text strictly between the first
occurrence of `pat` and the next one (or the end).  `none` when `pat` does
not occur, in which case Python's index `[1]` would be out of range. -/
def split1 (pat l : List Char) : Option (List Char) :=
  (afterFirst pat l).map (upToNext pat)

/-- Fuel-driven core of `str.replace(pat, '')`: deletes every occurrence of
`pat`, scanning left to right.  The fuel is the input length, which is
enough whenever `pat` is nonempty (each step consumes at least one
character). -/
def replaceGo (pat : List Char) : Nat → List Char → List Char
  | _, [] => []
  | 0, l => l
  | fuel + 1, c :: cs =>
    match matchHead pat (c :: cs) with
    | some rest => replaceGo pat fuel rest
    | none => c :: replaceGo pat fuel cs

/-- Python `l.replace(pat, '')` for nonempty `pat`. -/
def replaceDelAll (pat l : List Char) : List Char := replaceGo pat l.length l

/-- `os.path.basename`: the characters after the last `/`. -/
def basenameL (l : List Char) : List Char :=
  l.foldl (fun acc c => if c = '/' then [] else acc ++ [c]) []

/-- POSIX `os.path.join(a, b)` for two components. -/
def osJoinL (a b : List Char) : List Char :=
  match b with
  | '/' :: _ => b
  | _ =>
    match a with
    | [] => b
    | _ => if a.getLast? = some '/' then a ++ b else a ++ ('/' :: b)

/-- Python `pat in s`. -/
def pyContains (s pat : String) : Bool := containsL pat.toList s.toList

/-- Python `s.split(pat)[1]` (defined exactly when `pat` occurs in `s`). -/
def pySplit1 (s pat : String) : Option String :=
  (split1 pat.toList s.toList).map String.mk

/-- Python `s.replace(pat, '')` for nonempty `pat`. -/
def pyReplaceDel (s pat : String) : String := String.mk (replaceDelAll pat.toList s.toList)

/-- Python `s.lstrip(os.sep)` on POSIX: drop leading `/` characters. -/
def pyLstripSlash (s : String) : String :=
  String.mk (s.toList.dropWhile (fun c => c = '/'))

/-- POSIX `os.path.join(a, b)`. -/
def osJoin (a b : String) : String := String.mk (osJoinL a.toList b.toList)

/-- `os.path.basename(s)`. -/
def os_basename (s : String) : String := String.mk (basenameL s.toList)

/-! ## Data model: package directory trees and `os.walk` -/

/-- A regular file: name and raw byte content (bytes kept abstract as a
`String`). -/
structure FileEntry where
  name : String
  content : String
deriving DecidableEq, Repr

mutual
/-- A directory of the local application package: the regular files
directly inside it and its named subdirectories.  This is the filesystem
input the Python code walks with `os.walk`. -/
inductive Tree : Type where
  | node : List FileEntry → Forest → Tree
/-- The ordered subdirectories of a directory (the order `os.listdir`
happens to return them in). -/
inductive Forest : Type where
  | nil : Forest
  | cons : String → Tree → Forest → Forest
end

/-- One `os.walk` step: the directory's path relative to the walk root as
a component list (`[]` stands for the root itself, whose
`os.path.normpath(os.path.relpath(root, abspath))` is `"."`), and the
regular files directly inside it. -/
structure Frame where
  rel : List String
  files : List FileEntry
deriving DecidableEq, Repr

mutual
/-- Top-down `os.walk` over the tree: the root's frame first, then the
subdirectories recursively, in order. -/
def walk : Tree → List Frame
  | .node fs ds => ⟨[], fs⟩ :: walkForest ds
def walkForest : Forest → List Frame
  | .nil => []
  | .cons n t rest => (walk t).map (fun fr => ⟨n :: fr.rel, fr.files⟩) ++ walkForest rest
end

/-- `total_files_count` of `upload_to_native_imagestore`: the pre-scan
loop `for root, _, files in os.walk(abspath): total += len(files) + 1`. -/
def totalCount : List Frame → Nat
  | [] => 0
  | fr :: rest => fr.files.length + 1 + totalCount rest

/-- The pre-scan loop of `upload_to_fileshare`:
`for root, _, files in os.walk(source): total += len(files)`. -/
def filesCount : List Frame → Nat
  | [] => 0
  | fr :: rest => fr.files.length + filesCount rest

/-! ## Progress reporting (`print_progress`) -/

/-- The process's two output streams. -/
inductive OutStream : Type where
  | stdout
  | stderr
deriving DecidableEq, Repr

/-- One line written by the program: which stream, and the text. -/
structure Line where
  stream : OutStream
  text : String
deriving DecidableEq, Repr

/-- Whether a line went to the diagnostic stream. -/
def isStderrLine (ln : Line) : Bool :=
  match ln.stream with
  | .stderr => true
  | .stdout => false

/-- `print_progress(current, total, rel_file_path, show_progress)`: the
lines it writes.  `'[{}/{}] files, {}'.format(...)` printed to
`sys.stderr` when enabled, nothing otherwise. -/
def print_progress (current total : Nat) (rel_file_path : String) (show_progress : Bool) : List Line :=
  if show_progress then
    [⟨OutStream.stderr, "[" ++ Nat.repr current ++ "/" ++ Nat.repr total ++ "] files, " ++ rel_file_path⟩]
  else []

/-- The terminal `print('Complete', file=sys.stderr)` line. -/
def completeLine : Line := ⟨OutStream.stderr, "Complete"⟩

/-! ## Native image store transfer (`upload_to_native_imagestore`) -/

/-- A parsed URL, mirroring the six components of Python's
`urllib.parse.urlparse` result: scheme, netloc, path, params, query,
fragment. -/
structure Url where
  scheme : String
  netloc : String
  path : String
  params : String
  query : String
  fragment : String
deriving DecidableEq, Repr

/-- `list(urlparse(endpoint))`: the six URL components as a list, indexed
as in the Python code (`[2]` is the path, `[4]` the query). -/
def urlparseList (u : Url) : List String :=
  [u.scheme, u.netloc, u.path, u.params, u.query, u.fragment]

/-- `urllib.parse.urlencode` on a list of key/value pairs whose strings
need no percent-quoting (the only use in the source is
`{'api-version': '6.1'}`). -/
def urlencode (kvs : List (String × String)) : String :=
  String.intercalate "&" (kvs.map (fun kv => kv.1 ++ "=" ++ kv.2))

/-- The per-request URL surgery of the source: take the parsed endpoint,
overwrite index 2 (path) with `url_path` and index 4 (query) with
`urlencode({'api-version': '6.1'})`, leaving every other component as
configured.  The result is kept as the component list handed to
`urlunparse`. -/
def mkPutUrl (endpoint : Url) (url_path : String) : List String :=
  ((urlparseList endpoint).set 2 url_path).set 4 (urlencode [("api-version", "6.1")])

/-- `os.path.normpath(os.path.join('ImageStore', basename, rel_path, name)).replace('\\', '/')`
on POSIX, where `rel_path` is the component list of the directory's
relative path (`[]` for the walk root, whose `"."` segment `normpath`
drops) and the components contain no separators or dot segments. -/
def urlPath (basename : String) (rel : List String) (name : String) : String :=
  String.intercalate "/" ("ImageStore" :: basename :: (rel ++ [name]))

/-- `os.path.normpath(os.path.join(rel_path, name))` as passed to
`print_progress`, under the same conventions as `urlPath`. -/
def joinRel (rel : List String) (name : String) : String :=
  String.intercalate "/" (rel ++ [name])

/-- One HTTP PUT issued to the native store, as observed on the wire: the
URL component list given to `urlunparse`, the request body (`some` file
bytes, or `none` for the empty-bodied marker PUT), which upload unit it
was for, and whether the store answered with a success status (the value
`raise_for_status` checks). -/
structure PutEv where
  url : List String
  body : Option String
  rel : List String
  name : String
  ok : Bool
deriving DecidableEq, Repr

/-- State threaded through one native-store transfer: how many requests
have been issued (used to index the response oracle), the
`current_files_count` counter, the PUTs issued so far, and the lines
written so far. -/
structure NSt where
  count : Nat
  current : Nat
  trace : List PutEv
  output : List Line
deriving DecidableEq, Repr

/-- The inner `for f in files:` loop of `upload_to_native_imagestore`:
build the URL, PUT the file bytes, `raise_for_status()` (abort with the
partial state on a non-success response), then bump the counter and
report progress.  `oracle n` tells whether the `n`-th request of the
transfer gets a success status. -/
def runFiles (oracle : Nat → Bool) (e : Url) (b : String) (sp : Bool) (total : Nat)
    (rel : List String) : List FileEntry → NSt → NSt × Bool
  | [], st => (st, true)
  | fe :: fs, st =>
    if oracle st.count then
      runFiles oracle e b sp total rel fs
        ⟨st.count + 1, st.current + 1,
         st.trace ++ [⟨mkPutUrl e (urlPath b rel fe.name), some fe.content, rel, fe.name, true⟩],
         st.output ++ print_progress (st.current + 1) total (joinRel rel fe.name) sp⟩
    else
      (⟨st.count + 1, st.current,
        st.trace ++ [⟨mkPutUrl e (urlPath b rel fe.name), some fe.content, rel, fe.name, false⟩],
        st.output⟩, false)

/-- One iteration of the outer `for root, _, files in os.walk(abspath):`
loop: upload the directory's files, then PUT its empty-bodied `_.dir`
marker, `raise_for_status()`, bump the counter and report. -/
def runFrame (oracle : Nat → Bool) (e : Url) (b : String) (sp : Bool) (total : Nat)
    (fr : Frame) (st : NSt) : NSt × Bool :=
  match runFiles oracle e b sp total fr.rel fr.files st with
  | (st1, false) => (st1, false)
  | (st1, true) =>
    if oracle st1.count then
      (⟨st1.count + 1, st1.current + 1,
        st1.trace ++ [⟨mkPutUrl e (urlPath b fr.rel "_.dir"), none, fr.rel, "_.dir", true⟩],
        st1.output ++ print_progress (st1.current + 1) total (joinRel fr.rel "_.dir") sp⟩, true)
    else
      (⟨st1.count + 1, st1.current,
        st1.trace ++ [⟨mkPutUrl e (urlPath b fr.rel "_.dir"), none, fr.rel, "_.dir", false⟩],
        st1.output⟩, false)

/-- The outer walk loop; an exception from any `raise_for_status()`
aborts the remaining transfer. -/
def runFrames (oracle : Nat → Bool) (e : Url) (b : String) (sp : Bool) (total : Nat) :
    List Frame → NSt → NSt × Bool
  | [], st => (st, true)
  | fr :: rest, st =>
    match runFrame oracle e b sp total fr st with
    | (st1, true) => runFrames oracle e b sp total rest st1
    | (st1, false) => (st1, false)

/-- `upload_to_native_imagestore(sesh, endpoint, abspath, basename,
show_progress)`: pre-scan for the total, run the walk, and print the
terminal `Complete` line on success.  Returns the final observable state
and whether the transfer ran to completion (`false` = a
`raise_for_status` exception propagated). -/
def upload_to_native_imagestore (oracle : Nat → Bool) (endpoint : Url) (t : Tree)
    (basename : String) (show_progress : Bool) : NSt × Bool :=
  let r := runFrames oracle endpoint basename show_progress (totalCount (walk t)) (walk t) ⟨0, 0, [], []⟩
  if r.2 then
    (⟨r.1.count, r.1.current, r.1.trace,
      r.1.output ++ (if show_progress then [completeLine] else [])⟩, true)
  else r

/-! ## File share transfer (`upload_to_fileshare`) -/

/-- One `shutil.copyfile` call: absolute source path, absolute
destination path, and the bytes copied verbatim. -/
structure CopyEv where
  src : String
  dest : String
  content : String
deriving DecidableEq, Repr

/-- State of one file-share transfer: the `current_files_count` counter,
the copies performed, and the lines written. -/
structure FSt where
  current : Nat
  copies : List CopyEv
  output : List Line
deriving DecidableEq, Repr

/-- The root string `os.walk` hands to the loop body for a directory at
relative components `rel` under `source`: `source` itself for the walk
root, `source + '/' + ...` below it (`os.path.abspath` output has no
trailing separator). -/
def rootPathOf (source : String) (rel : List String) : String :=
  match rel with
  | [] => source
  | _ => source ++ "/" ++ String.intercalate "/" rel

/-- The body of `for f in files:` in `upload_to_fileshare`:
`rel_path = root.replace(source, '').lstrip(os.sep)` (note: `str.replace`
deletes EVERY occurrence of `source`, not just the leading one),
`dest_path = os.path.join(dest, rel_path)`, `os.makedirs` (not
observable here), `shutil.copyfile(os.path.join(root, f),
os.path.join(dest_path, f))`, count, report. -/
def shareFileStep (source dest : String) (sp : Bool) (total : Nat) (root : String)
    (st : FSt) (fe : FileEntry) : FSt :=
  let rel_path := pyLstripSlash (pyReplaceDel root source)
  let dest_path := osJoin dest rel_path
  ⟨st.current + 1,
   st.copies ++ [⟨osJoin root fe.name, osJoin dest_path fe.name, fe.content⟩],
   st.output ++ print_progress (st.current + 1) total (osJoin rel_path fe.name) sp⟩

/-- `upload_to_fileshare(source, dest, show_progress)`: pre-scan for the
file total, walk again copying each file, then print `Complete` when
enabled.  Filesystem operations are assumed to succeed (a failure would
propagate and truncate the copy list; nothing proved here depends on
that). -/
def upload_to_fileshare (source : String) (t : Tree) (dest : String) (show_progress : Bool) : FSt :=
  let frames := walk t
  let total := filesCount frames
  let st := frames.foldl
    (fun st fr => fr.files.foldl
      (shareFileStep source dest show_progress total (rootPathOf source fr.rel)) st)
    ⟨0, [], []⟩
  ⟨st.current, st.copies, st.output ++ (if show_progress then [completeLine] else [])⟩

/-! ## Destination resolution and the upload orchestrator (`upload`) -/

/-- `path_from_imagestore_string(imagestore_connstr)`.  The Python
function returns the string `imagestore_connstr.split('file:')[1]` when
the argument is truthy and contains `'file:'`, and the boolean `False`
otherwise; the `Option` models that union (`none` = `False`). -/
def path_from_imagestore_string : Option String → Option String
  | none => none
  | some s =>
    if s = "" then none
    else if pyContains s "file:" then pySplit1 s "file:"
    else none

/-- The trust/auth configuration `upload` reads (`client_endpoint()`,
`cert_info()`, `no_verify_setting()`, `ca_cert_info()`), consumed as
opaque external inputs. -/
structure Config where
  endpoint : Url
  cert : Option String
  no_verify : Bool
  ca_cert_info : Option String

/-- Everything one `upload` call can be observed to do. -/
inductive UploadResult : Type where
  /-- `validate_app_path` raised `ValueError` (path not an existing
  directory); nothing was transferred. -/
  | invalidPath (msg : String)
  /-- A `CLIError` raised before any transfer began. -/
  | cliError (msg : String)
  /-- Unreachable branch kept for totality: the file-share dispatch with
  a resolver result of `False` (cannot happen, the dispatch guard is the
  same containment test the resolver uses). -/
  | internalError
  /-- File-share transfer ran (destination root, transfer result). -/
  | fileshareDone (dest : String) (res : FSt)
  /-- Native-store transfer completed. -/
  | nativeDone (st : NSt)
  /-- Native-store transfer aborted on a non-success HTTP status. -/
  | nativeFailed (st : NSt)
deriving DecidableEq, Repr

/-- `upload(path, imagestore_string, show_progress)`.  `fs` is the
filesystem at `pathArg`: `some` tree when it is an existing directory
(what `validate_app_path` checks), `none` otherwise.  `pathArg` stands
for the already-absolute `os.path.abspath(path)`. -/
def upload (pathArg : String) (fs : Option Tree) (cfg : Config) (oracle : Nat → Bool)
    (imagestore_string : String) (show_progress : Bool) : UploadResult :=
  match fs with
  | none => .invalidPath ("Invalid path to application directory: " ++ pathArg)
  | some t =>
    let basename := os_basename pathArg
    if cfg.no_verify && cfg.ca_cert_info.isSome then
      .cliError "Cannot specify both CA cert info and no verify"
    else if pyContains imagestore_string "file:" then
      match path_from_imagestore_string (some imagestore_string) with
      | some dest_path =>
        .fileshareDone (osJoin dest_path basename)
          (upload_to_fileshare pathArg t (osJoin dest_path basename) show_progress)
      | none => .internalError
    else if imagestore_string = "fabric:ImageStore" then
      match upload_to_native_imagestore oracle cfg.endpoint t basename show_progress with
      | (st, true) => .nativeDone st
      | (st, false) => .nativeFailed st
    else .cliError "Unsupported image store connection string"

/-! ## Provisioning (`provision_application_type`) -/

/-- The two mutually exclusive provisioning request shapes. -/
inductive ProvisionDescription : Type where
  | imageStorePath (asyncFlag : Bool) (application_type_build_path : String)
  | externalStore (asyncFlag : Bool) (application_package_download_uri : String)
      (application_type_name : String) (application_type_version : String)
deriving DecidableEq, Repr

/-- Python falsiness of an optional CLI string argument: absent (`None`)
or empty. -/
def pyFalsy (o : Option String) : Bool := o.getD "" = ""

/-- The validation and description-building prefix of
`provision_application_type` (lines 56-79 of `custom_app.py`), with each
`CLIError` carried as its message.  `provision_kind` is a required CLI
string (Python `None` collapses onto `""`, both falsy); the `async`
argument reaches this code already parsed to a boolean by `to_bool`. -/
def provision_application_type (provision_kind : String) (asyncFlag : Bool)
    (application_type_build_path application_package_download_uri
     application_type_name application_type_version : Option String) :
    Except String ProvisionDescription :=
  if provision_kind = "" then
    .error "Missing required parameter --provision-kind."
  else if provision_kind = "ImageStorePath" then
    if pyFalsy application_type_build_path then
      .error "Missing required parameter --application-type-build-path."
    else
      .ok (.imageStorePath asyncFlag (application_type_build_path.getD ""))
  else if provision_kind = "ExternalStore" then
    if pyFalsy application_package_download_uri || pyFalsy application_type_name
        || pyFalsy application_type_version then
      .error "Missing required parameters. The following are required: --application-package-download-uri, --application-type-name, --application-type-version."
    else
      .ok (.externalStore asyncFlag (application_package_download_uri.getD "")
        (application_type_name.getD "") (application_type_version.getD ""))
  else
    .error "Parameter --provision-kind has an incorrect value. Choose from the following: ImageStorePath, ExternalStore."

/-- The provisioning HTTP response, as the status check sees it: status
code plus the server's error body (what `FabricErrorException` is built
from). -/
structure HttpResponse where
  status_code : Nat
  body : String
deriving DecidableEq, Repr

/-- The send-and-check suffix of `provision_application_type` (lines
105-111): `if response.status_code not in [200, 202]: raise
models.FabricErrorException(...)`, the exception carrying the response. -/
def provision_send_check (resp : HttpResponse) : Except HttpResponse Unit :=
  if ¬(resp.status_code ∈ [200, 202]) then .error resp else .ok ()

/-- An error raised by the full provisioning call. -/
inductive ProvisionError : Type where
  | cli (msg : String)
  | fabric (resp : HttpResponse)
deriving DecidableEq, Repr

/-- The whole `provision_application_type` command: validate and build
the description, then send and check the status.  `resp` is the
response the cluster returns to the POST. -/
def provision_full (provision_kind : String) (asyncFlag : Bool)
    (application_type_build_path application_package_download_uri
     application_type_name application_type_version : Option String)
    (resp : HttpResponse) : Except ProvisionError Unit :=
  match provision_application_type provision_kind asyncFlag application_type_build_path
      application_package_download_uri application_type_name application_type_version with
  | .error m => .error (.cli m)
  | .ok _ =>
    match provision_send_check resp with
    | .error r => .error (.fabric r)
    | .ok _ => .ok ()

/-! ## Derived descriptions of native-store traces and output

These helpers name the event sequences the transfer produces; the
theorems below prove the runs equal to them. -/

/-- The successful file PUT events for the files of one directory, in
order. -/
def fileEvsOf (e : Url) (b : String) (rel : List String) (fs : List FileEntry) : List PutEv :=
  fs.map (fun fe => ⟨mkPutUrl e (urlPath b rel fe.name), some fe.content, rel, fe.name, true⟩)

/-- A successful `_.dir` marker PUT event for one directory. -/
def markerEvOf (e : Url) (b : String) (rel : List String) : PutEv :=
  ⟨mkPutUrl e (urlPath b rel "_.dir"), none, rel, "_.dir", true⟩

/-- A failed file PUT event (non-success HTTP status). -/
def failFileEv (e : Url) (b : String) (rel : List String) (fe : FileEntry) : PutEv :=
  ⟨mkPutUrl e (urlPath b rel fe.name), some fe.content, rel, fe.name, false⟩

/-- A failed `_.dir` marker PUT event. -/
def failMarkerEv (e : Url) (b : String) (rel : List String) : PutEv :=
  ⟨mkPutUrl e (urlPath b rel "_.dir"), none, rel, "_.dir", false⟩

/-- The complete event sequence for one directory: all of its file PUTs,
then its marker PUT. -/
def frameEvsOf (e : Url) (b : String) (fr : Frame) : List PutEv :=
  fileEvsOf e b fr.rel fr.files ++ [markerEvOf e b fr.rel]

/-- The complete event sequence of a fully successful transfer over the
given walk frames. -/
def okTrace (e : Url) (b : String) : List Frame → List PutEv
  | [] => []
  | fr :: rest => frameEvsOf e b fr ++ okTrace e b rest

/-- The progress lines for the files of one directory, starting from
counter value `cur`. -/
def filesOutput (sp : Bool) (total : Nat) (rel : List String) : Nat → List FileEntry → List Line
  | _, [] => []
  | cur, fe :: fs =>
    print_progress (cur + 1) total (joinRel rel fe.name) sp ++
      filesOutput sp total rel (cur + 1) fs

/-- The progress lines for one directory (its files, then its marker). -/
def frameOutput (sp : Bool) (total : Nat) (fr : Frame) (cur : Nat) : List Line :=
  filesOutput sp total fr.rel cur fr.files ++
    print_progress (cur + fr.files.length + 1) total (joinRel fr.rel "_.dir") sp

/-- The progress lines of a fully successful transfer, starting from
counter value `cur`. -/
def framesOutput (sp : Bool) (total : Nat) : Nat → List Frame → List Line
  | _, [] => []
  | cur, fr :: rest =>
    frameOutput sp total fr cur ++ framesOutput sp total (cur + (fr.files.length + 1)) rest

/-- Number of file PUTs in a trace (requests carrying a body). -/
def countFilePuts (trace : List PutEv) : Nat := trace.countP (fun ev => ev.body.isSome)

/-- Number of marker PUTs in a trace (empty-bodied requests). -/
def countMarkerPuts (trace : List PutEv) : Nat := trace.countP (fun ev => ev.body.isNone)

/-- Per-request well-formedness of a native-store PUT, as claimed of the
source: the URL handed to `urlunparse` is the configured endpoint with
only its path component (index 2) replaced by the unit's
`ImageStore/...` path and its query component (index 4) replaced by
exactly `api-version=6.1`; empty-bodied requests are `_.dir` markers. -/
def putShape (e : Url) (b : String) (ev : PutEv) : Prop :=
  ev.url = [e.scheme, e.netloc, urlPath b ev.rel ev.name, e.params, "api-version=6.1", e.fragment] ∧
  (ev.body = none → ev.name = "_.dir")

/-- Follows the spec's words for destination resolution (claim C3): "the
substring after it [the literal marker `file:`] is the file-share
root" — everything after the first occurrence of the marker. -/
def specRootFollowingMarker (s : String) : String :=
  String.mk ((afterFirst "file:".toList s.toList).getD [])

/-! ## Concrete fixtures used by witnesses and counterexamples -/

/-- A configured endpoint with every component populated, so component
preservation is visible. -/
def wUrl : Url := ⟨"http", "localhost:19080", "/old", "pr", "q=0", "frag"⟩

/-- A root directory holding two files and no subdirectories. -/
def wTree2 : Tree := .node [⟨"a", "A"⟩, ⟨"b", "B"⟩] .nil

/-- A response oracle that accepts the first request and fails the
second. -/
def wOracle : Nat → Bool := fun n => n == 0

/-- A trust configuration with both `no_verify` and an explicit CA
bundle: the conflicting pair. -/
def wCfgConflict : Config := ⟨wUrl, none, true, some "/ca.pem"⟩

/-- An unconflicted trust configuration. -/
def wCfg : Config := ⟨wUrl, none, false, none⟩

/-- The directory tree `x/p/f` that makes `root.replace(source, '')`
misbehave for source path `/p`: the walk visits root `/p/x/p`, which
contains the source string twice. -/
def bugTree : Tree :=
  .node [] (.cons "x" (.node [] (.cons "p" (.node [⟨"f", "BYTES"⟩] .nil) .nil)) .nil)

end Sfctl

namespace Sfctl

/-! ## Characterization of the native-store run -/

/-- A run of the inner file loop that ends without an exception performed
one successful PUT, one counter bump and one progress report per file, in
order. -/
theorem runFiles_ok (oracle : Nat → Bool) (e : Url) (b : String) (sp : Bool) (total : Nat)
    (rel : List String) : ∀ (fs : List FileEntry) (st st2 : NSt),
    runFiles oracle e b sp total rel fs st = (st2, true) →
    st2 = ⟨st.count + fs.length, st.current + fs.length,
           st.trace ++ fileEvsOf e b rel fs,
           st.output ++ filesOutput sp total rel st.current fs⟩ := by
  intro fs
  induction fs with
  | nil =>
    intro st st2 h
    rw [runFiles] at h
    cases h
    simp [fileEvsOf, filesOutput]
  | cons fe fs ih =>
    intro st st2 h
    rw [runFiles] at h
    by_cases ho : oracle st.count = true
    · rw [if_pos ho] at h
      have hst := ih _ _ h
      subst hst
      simp [fileEvsOf, filesOutput, NSt.mk.injEq, List.append_assoc]
      omega
    · rw [if_neg ho] at h
      simp at h

/-- A run of the inner file loop that aborts did so at the first file
whose PUT got a non-success status: the trace extends by the successful
PUTs before it plus the failed one, and no further events. -/
theorem runFiles_fail (oracle : Nat → Bool) (e : Url) (b : String) (sp : Bool) (total : Nat)
    (rel : List String) : ∀ (fs : List FileEntry) (st st2 : NSt),
    runFiles oracle e b sp total rel fs st = (st2, false) →
    ∃ fs1 fe fs2, fs = fs1 ++ fe :: fs2 ∧
      st2 = ⟨st.count + fs1.length + 1, st.current + fs1.length,
             st.trace ++ fileEvsOf e b rel fs1 ++ [failFileEv e b rel fe],
             st.output ++ filesOutput sp total rel st.current fs1⟩ := by
  intro fs
  induction fs with
  | nil =>
    intro st st2 h
    rw [runFiles] at h
    simp at h
  | cons fe fs ih =>
    intro st st2 h
    rw [runFiles] at h
    by_cases ho : oracle st.count = true
    · rw [if_pos ho] at h
      obtain ⟨fs1, fe1, fs2, hfs, hst⟩ := ih _ _ h
      refine ⟨fe :: fs1, fe1, fs2, by simp [hfs], ?_⟩
      subst hst
      simp [fileEvsOf, filesOutput, NSt.mk.injEq, List.append_assoc]
      omega
    · rw [if_neg ho] at h
      cases h
      refine ⟨[], fe, fs, rfl, ?_⟩
      simp [fileEvsOf, filesOutput, failFileEv]

/-- A directory iteration that ends without an exception put all the
directory's files and then its marker, bumping the counter and reporting
after each. -/
theorem runFrame_ok (oracle : Nat → Bool) (e : Url) (b : String) (sp : Bool) (total : Nat)
    (fr : Frame) (st st2 : NSt)
    (h : runFrame oracle e b sp total fr st = (st2, true)) :
    st2 = ⟨st.count + fr.files.length + 1, st.current + fr.files.length + 1,
           st.trace ++ frameEvsOf e b fr,
           st.output ++ frameOutput sp total fr st.current⟩ := by
  unfold runFrame at h
  split at h
  · simp at h
  · rename_i st1 heq
    have h1 := runFiles_ok oracle e b sp total fr.rel fr.files st st1 heq
    subst h1
    by_cases ho : oracle (st.count + fr.files.length) = true
    · rw [if_pos] at h
      · cases h
        simp [frameEvsOf, frameOutput, markerEvOf, List.append_assoc]
      · simpa using ho
    · rw [if_neg] at h
      · simp at h
      · simpa using ho

/-- A directory iteration that aborts either failed at one of the
directory's file PUTs — in which case the trace ends at that file PUT and
the directory's marker was NEVER issued — or at the marker PUT itself,
after all the directory's file PUTs succeeded. -/
theorem runFrame_fail (oracle : Nat → Bool) (e : Url) (b : String) (sp : Bool) (total : Nat)
    (fr : Frame) (st st2 : NSt)
    (h : runFrame oracle e b sp total fr st = (st2, false)) :
    (∃ fs1 fe fs2, fr.files = fs1 ++ fe :: fs2 ∧
       st2.trace = st.trace ++ fileEvsOf e b fr.rel fs1 ++ [failFileEv e b fr.rel fe]) ∨
    st2.trace = st.trace ++ fileEvsOf e b fr.rel fr.files ++ [failMarkerEv e b fr.rel] := by
  unfold runFrame at h
  split at h
  · rename_i st1 heq
    cases h
    obtain ⟨fs1, fe, fs2, hfs, hst⟩ := runFiles_fail oracle e b sp total fr.rel fr.files st st2 heq
    exact Or.inl ⟨fs1, fe, fs2, hfs, by rw [hst]⟩
  · rename_i st1 heq
    have h1 := runFiles_ok oracle e b sp total fr.rel fr.files st st1 heq
    subst h1
    split at h
    · simp at h
    · cases h
      exact Or.inr (by simp [failMarkerEv, List.append_assoc])

/-- A walk run that ends without an exception produced exactly the full
per-directory event sequence and the full progress output. -/
theorem runFrames_ok (oracle : Nat → Bool) (e : Url) (b : String) (sp : Bool) (total : Nat) :
    ∀ (frames : List Frame) (st st2 : NSt),
    runFrames oracle e b sp total frames st = (st2, true) →
    st2 = ⟨st.count + totalCount frames, st.current + totalCount frames,
           st.trace ++ okTrace e b frames,
           st.output ++ framesOutput sp total st.current frames⟩ := by
  intro frames
  induction frames with
  | nil =>
    intro st st2 h
    rw [runFrames] at h
    cases h
    simp [totalCount, okTrace, framesOutput]
  | cons fr rest ih =>
    intro st st2 h
    rw [runFrames] at h
    split at h
    · rename_i st1 heq
      have h1 := runFrame_ok oracle e b sp total fr st st1 heq
      subst h1
      have h2 := ih _ _ h
      subst h2
      simp [totalCount, okTrace, framesOutput, NSt.mk.injEq, List.append_assoc, Nat.add_assoc]
    · simp at h

/-- A walk run that aborts did so inside some directory `fr`, after
finishing the directories `done` before it completely; the trace ends
either at a failed file PUT of `fr` (with no marker for `fr`) or at
`fr`'s failed marker PUT, and no later event exists. -/
theorem runFrames_fail (oracle : Nat → Bool) (e : Url) (b : String) (sp : Bool) (total : Nat) :
    ∀ (frames : List Frame) (st st2 : NSt),
    runFrames oracle e b sp total frames st = (st2, false) →
    ∃ done fr rest, frames = done ++ fr :: rest ∧
      ((∃ fs1 fe fs2, fr.files = fs1 ++ fe :: fs2 ∧
          st2.trace = st.trace ++ okTrace e b done ++ fileEvsOf e b fr.rel fs1 ++
            [failFileEv e b fr.rel fe]) ∨
       st2.trace = st.trace ++ okTrace e b done ++ fileEvsOf e b fr.rel fr.files ++
         [failMarkerEv e b fr.rel]) := by
  intro frames
  induction frames with
  | nil =>
    intro st st2 h
    rw [runFrames] at h
    simp at h
  | cons fr rest ih =>
    intro st st2 h
    rw [runFrames] at h
    split at h
    · rename_i st1 heq
      have h1 := runFrame_ok oracle e b sp total fr st st1 heq
      subst h1
      obtain ⟨done, fr1, rest1, hfr, hshape⟩ := ih _ _ h
      refine ⟨fr :: done, fr1, rest1, by simp [hfr], ?_⟩
      rcases hshape with ⟨fs1, fe, fs2, hfs, htr⟩ | htr
      · exact Or.inl ⟨fs1, fe, fs2, hfs, by rw [htr]; simp [okTrace, List.append_assoc]⟩
      · exact Or.inr (by rw [htr]; simp [okTrace, List.append_assoc])
    · rename_i st1 heq
      cases h
      have hsh := runFrame_fail oracle e b sp total fr st st2 heq
      refine ⟨[], fr, rest, rfl, ?_⟩
      simpa [okTrace] using hsh

/-- With a store that answers success to everything, the inner file loop
never raises. -/
theorem runFiles_true_oracle (e : Url) (b : String) (sp : Bool) (total : Nat)
    (rel : List String) : ∀ (fs : List FileEntry) (st : NSt),
    (runFiles (fun _ => true) e b sp total rel fs st).2 = true := by
  intro fs
  induction fs with
  | nil => intro st; rw [runFiles]
  | cons fe fs ih => intro st; rw [runFiles]; simp; exact ih _

/-- With a store that answers success to everything, a directory
iteration never raises. -/
theorem runFrame_true_oracle (e : Url) (b : String) (sp : Bool) (total : Nat)
    (fr : Frame) (st : NSt) :
    (runFrame (fun _ => true) e b sp total fr st).2 = true := by
  unfold runFrame
  split
  · rename_i st1 heq
    have := runFiles_true_oracle e b sp total fr.rel fr.files st
    rw [heq] at this
    simp at this
  · simp

/-- With a store that answers success to everything, the walk run never
raises. -/
theorem runFrames_true_oracle (e : Url) (b : String) (sp : Bool) (total : Nat) :
    ∀ (frames : List Frame) (st : NSt),
    (runFrames (fun _ => true) e b sp total frames st).2 = true := by
  intro frames
  induction frames with
  | nil => intro st; rw [runFrames]
  | cons fr rest ih =>
    intro st
    rw [runFrames]
    split
    · exact ih _
    · rename_i st1 heq
      have := runFrame_true_oracle e b sp total fr st
      rw [heq] at this
      simp at this

/-! ## Counting and output lemmas -/

/-- A fully successful trace holds one body-carrying PUT per file. -/
theorem countFile_okTrace (e : Url) (b : String) :
    ∀ frames, countFilePuts (okTrace e b frames) = filesCount frames := by
  intro frames
  induction frames with
  | nil => rfl
  | cons fr rest ih =>
    rw [okTrace, filesCount]
    rw [countFilePuts] at ih ⊢
    rw [List.countP_append, ih]
    have hfr : (frameEvsOf e b fr).countP (fun ev => ev.body.isSome) = fr.files.length := by
      rw [frameEvsOf, List.countP_append]
      have h1 : (fileEvsOf e b fr.rel fr.files).countP (fun ev => ev.body.isSome) =
          fr.files.length := by
        induction fr.files with
        | nil => rfl
        | cons fe fs ihf => simp [fileEvsOf, List.countP_cons] at ihf ⊢
      simp [h1, markerEvOf, List.countP_cons]
    omega

/-- A fully successful trace holds one empty-bodied PUT per directory. -/
theorem countMarker_okTrace (e : Url) (b : String) :
    ∀ frames, countMarkerPuts (okTrace e b frames) = frames.length := by
  intro frames
  induction frames with
  | nil => rfl
  | cons fr rest ih =>
    rw [okTrace]
    rw [countMarkerPuts] at ih ⊢
    rw [List.countP_append, ih]
    have hfr : (frameEvsOf e b fr).countP (fun ev => ev.body.isNone) = 1 := by
      rw [frameEvsOf, List.countP_append]
      have h1 : (fileEvsOf e b fr.rel fr.files).countP (fun ev => ev.body.isNone) = 0 := by
        induction fr.files with
        | nil => rfl
        | cons fe fs ihf => simp [fileEvsOf, List.countP_cons]
      simp [h1, markerEvOf, List.countP_cons]
    simp [hfr]
    omega

/-- The pre-scan total is the file count plus the directory count. -/
theorem totalCount_eq : ∀ frames : List Frame,
    totalCount frames = filesCount frames + frames.length := by
  intro frames
  induction frames with
  | nil => rfl
  | cons fr rest ih => rw [totalCount, filesCount, ih]; simp; omega

/-- Every walk contains at least its root directory. -/
theorem walk_length_pos (t : Tree) : 1 ≤ (walk t).length := by
  cases t with
  | node fs ds => rw [walk]; simp

/-- With progress enabled, a nonempty run writes at least its marker
lines. -/
theorem framesOutput_ne_nil (total cur : Nat) (fr : Frame) (rest : List Frame) :
    framesOutput true total cur (fr :: rest) ≠ [] := by
  rw [framesOutput]
  simp [frameOutput, print_progress]

/-- With progress enabled, the last progress line of a successful run
reports counter value `cur + totalCount frames`. -/
theorem framesOutput_getLast (total : Nat) :
    ∀ (frames : List Frame) (cur : Nat), frames ≠ [] →
    ∃ p, (framesOutput true total cur frames).getLast? =
      some ⟨OutStream.stderr,
        "[" ++ Nat.repr (cur + totalCount frames) ++ "/" ++ Nat.repr total ++ "] files, " ++ p⟩ := by
  intro frames
  induction frames with
  | nil => intro cur h; exact absurd rfl h
  | cons fr rest ih =>
    intro cur _
    cases rest with
    | nil =>
      refine ⟨joinRel fr.rel "_.dir", ?_⟩
      have harith : cur + totalCount [fr] = cur + fr.files.length + 1 := by
        simp only [totalCount]; omega
      rw [harith, framesOutput, framesOutput, List.append_nil, frameOutput, print_progress]
      simp [List.getLast?_concat]
    | cons fr2 rest2 =>
      obtain ⟨p, hp⟩ := ih (cur + (fr.files.length + 1)) (by simp)
      have harith : cur + (fr.files.length + 1) + totalCount (fr2 :: rest2) =
          cur + totalCount (fr :: fr2 :: rest2) := by
        simp only [totalCount]; omega
      rw [harith] at hp
      refine ⟨p, ?_⟩
      rw [framesOutput, List.getLast?_append, hp]
      rfl

/-! ## Per-event URL shape -/

/-- The URL surgery touches exactly indices 2 and 4 of the component
list. -/
theorem mkPutUrl_eq (e : Url) (p : String) :
    mkPutUrl e p = [e.scheme, e.netloc, p, e.params, "api-version=6.1", e.fragment] := rfl

/-- Every successful file PUT event of a directory is well-shaped. -/
theorem shape_fileEvsOf (e : Url) (b : String) (rel : List String) (fs : List FileEntry) :
    ∀ ev ∈ fileEvsOf e b rel fs, putShape e b ev := by
  intro ev hev
  rw [fileEvsOf, List.mem_map] at hev
  obtain ⟨fe, _, rfl⟩ := hev
  exact ⟨mkPutUrl_eq e _, by intro h; cases h⟩

/-- Every event of a fully successful trace is well-shaped. -/
theorem shape_okTrace (e : Url) (b : String) :
    ∀ frames, ∀ ev ∈ okTrace e b frames, putShape e b ev := by
  intro frames
  induction frames with
  | nil => intro ev hev; cases hev
  | cons fr rest ih =>
    intro ev hev
    rw [okTrace, List.mem_append] at hev
    rcases hev with hev | hev
    · rw [frameEvsOf, List.mem_append] at hev
      rcases hev with hev | hev
      · exact shape_fileEvsOf e b fr.rel fr.files ev hev
      · rw [List.mem_singleton] at hev
        subst hev
        exact ⟨mkPutUrl_eq e _, fun _ => rfl⟩
    · exact ih ev hev

/-- A failed file PUT event is well-shaped. -/
theorem shape_failFileEv (e : Url) (b : String) (rel : List String) (fe : FileEntry) :
    putShape e b (failFileEv e b rel fe) :=
  ⟨mkPutUrl_eq e _, by intro h; cases h⟩

/-- A failed marker PUT event is well-shaped. -/
theorem shape_failMarkerEv (e : Url) (b : String) (rel : List String) :
    putShape e b (failMarkerEv e b rel) :=
  ⟨mkPutUrl_eq e _, fun _ => rfl⟩

/-- Every event in any native-store trace, successful or aborted, is
well-shaped. -/
theorem shape_trace (oracle : Nat → Bool) (e : Url) (t : Tree) (b : String) (sp : Bool) :
    ∀ ev ∈ (upload_to_native_imagestore oracle e t b sp).1.trace, putShape e b ev := by
  intro ev hev
  cases hr : runFrames oracle e b sp (totalCount (walk t)) (walk t) ⟨0, 0, [], []⟩ with
  | mk st ok =>
    cases ok with
    | true =>
      have hst := runFrames_ok oracle e b sp (totalCount (walk t)) (walk t) ⟨0, 0, [], []⟩ st hr
      rw [upload_to_native_imagestore] at hev
      simp only [hr] at hev
      rw [hst] at hev
      simp at hev
      exact shape_okTrace e b (walk t) ev hev
    | false =>
      rw [upload_to_native_imagestore] at hev
      simp only [hr] at hev
      simp at hev
      obtain ⟨done, fr, rest, _, hshape⟩ :=
        runFrames_fail oracle e b sp (totalCount (walk t)) (walk t) ⟨0, 0, [], []⟩ st hr
      rcases hshape with ⟨fs1, fe, fs2, _, htr⟩ | htr
      · rw [htr] at hev
        simp [List.mem_append] at hev
        rcases hev with hev | hev | hev
        · exact shape_okTrace e b done ev hev
        · exact shape_fileEvsOf e b fr.rel fs1 ev hev
        · subst hev; exact shape_failFileEv e b fr.rel fe
      · rw [htr] at hev
        simp [List.mem_append] at hev
        rcases hev with hev | hev | hev
        · exact shape_okTrace e b done ev hev
        · exact shape_fileEvsOf e b fr.rel fr.files ev hev
        · subst hev; exact shape_failMarkerEv e b fr.rel

/-! ## Claim theorems -/

/-- C1: For every native-store transfer, a directory's `_.dir` marker PUT
is issued only after every PUT for the files directly inside that
directory has succeeded; if any file PUT in a directory fails, the marker
PUT for that directory is never issued and the remaining transfer aborts.
Stated as a full characterization of the PUT trace: a completed transfer
produces, per directory in walk order, its file PUTs followed by its
marker PUT (`okTrace`); an aborted transfer produced the complete
sequences of the directories before some directory `fr`, and within `fr`
either stopped at a failed file PUT — with `fr`'s marker (and everything
later) never issued — or failed at `fr`'s own marker PUT after all of
`fr`'s file PUTs succeeded.  Either way the trace ends at the failed
request. -/
theorem c1_marker_ordering (oracle : Nat → Bool) (e : Url) (t : Tree) (b : String) (sp : Bool) :
    ((upload_to_native_imagestore oracle e t b sp).2 = true →
      (upload_to_native_imagestore oracle e t b sp).1.trace = okTrace e b (walk t)) ∧
    ((upload_to_native_imagestore oracle e t b sp).2 = false →
      ∃ done fr rest, walk t = done ++ fr :: rest ∧
        ((∃ fs1 fe fs2, fr.files = fs1 ++ fe :: fs2 ∧
            (upload_to_native_imagestore oracle e t b sp).1.trace =
              okTrace e b done ++ fileEvsOf e b fr.rel fs1 ++ [failFileEv e b fr.rel fe]) ∨
         (upload_to_native_imagestore oracle e t b sp).1.trace =
           okTrace e b done ++ fileEvsOf e b fr.rel fr.files ++ [failMarkerEv e b fr.rel])) := by
  cases hr : runFrames oracle e b sp (totalCount (walk t)) (walk t) ⟨0, 0, [], []⟩ with
  | mk st ok =>
    cases ok with
    | true =>
      have hst := runFrames_ok oracle e b sp (totalCount (walk t)) (walk t) ⟨0, 0, [], []⟩ st hr
      constructor
      · intro _
        rw [upload_to_native_imagestore]
        simp only [hr]
        rw [hst]
        simp
      · intro hfalse
        rw [upload_to_native_imagestore] at hfalse
        simp only [hr] at hfalse
        simp at hfalse
    | false =>
      constructor
      · intro htrue
        rw [upload_to_native_imagestore] at htrue
        simp only [hr] at htrue
        simp at htrue
      · intro _
        obtain ⟨done, fr, rest, hfr, hshape⟩ :=
          runFrames_fail oracle e b sp (totalCount (walk t)) (walk t) ⟨0, 0, [], []⟩ st hr
        refine ⟨done, fr, rest, hfr, ?_⟩
        rw [upload_to_native_imagestore]
        simp only [hr]
        simpa using hshape

/-- Witness for C1 at a concrete input: a root with files `a` then `b`
against a store that accepts the first request and rejects the second.
The transfer aborts at `b`'s file PUT and no marker PUT ever happens. -/
theorem c1_witness :
    (upload_to_native_imagestore wOracle wUrl wTree2 "pkg" false).2 = false ∧
    ∃ done fr rest, walk wTree2 = done ++ fr :: rest ∧
      ((∃ fs1 fe fs2, fr.files = fs1 ++ fe :: fs2 ∧
          (upload_to_native_imagestore wOracle wUrl wTree2 "pkg" false).1.trace =
            okTrace wUrl "pkg" done ++ fileEvsOf wUrl "pkg" fr.rel fs1 ++
              [failFileEv wUrl "pkg" fr.rel fe]) ∨
       (upload_to_native_imagestore wOracle wUrl wTree2 "pkg" false).1.trace =
         okTrace wUrl "pkg" done ++ fileEvsOf wUrl "pkg" fr.rel fr.files ++
           [failMarkerEv wUrl "pkg" fr.rel]) :=
  ⟨by decide, (c1_marker_ordering wOracle wUrl wTree2 "pkg" false).2 (by decide)⟩

/-- C2: For every source directory tree with `F` regular files and `D`
directories (`D ≥ 1`, root included, zero-file directories included), a
successful native-store transfer issues exactly `F` file PUTs and `D`
marker PUTs, and the final progress report line shows
`current == total == F + D` (the last line before the terminal
`Complete`). -/
theorem c2_native_counts (e : Url) (t : Tree) (b : String) :
    (upload_to_native_imagestore (fun _ => true) e t b true).2 = true ∧
    countFilePuts (upload_to_native_imagestore (fun _ => true) e t b true).1.trace =
      filesCount (walk t) ∧
    countMarkerPuts (upload_to_native_imagestore (fun _ => true) e t b true).1.trace =
      (walk t).length ∧
    1 ≤ (walk t).length ∧
    (upload_to_native_imagestore (fun _ => true) e t b true).1.current =
      filesCount (walk t) + (walk t).length ∧
    totalCount (walk t) = filesCount (walk t) + (walk t).length ∧
    ∃ p, ((upload_to_native_imagestore (fun _ => true) e t b true).1.output.dropLast).getLast? =
      some ⟨OutStream.stderr,
        "[" ++ Nat.repr (filesCount (walk t) + (walk t).length) ++ "/" ++
          Nat.repr (filesCount (walk t) + (walk t).length) ++ "] files, " ++ p⟩ := by
  obtain ⟨st1, ok1, hpair⟩ : ∃ st ok,
      runFrames (fun _ => true) e b true (totalCount (walk t)) (walk t) ⟨0, 0, [], []⟩ =
        (st, ok) := ⟨_, _, rfl⟩
  have hsnd := runFrames_true_oracle e b true (totalCount (walk t)) (walk t) ⟨0, 0, [], []⟩
  rw [hpair] at hsnd
  simp at hsnd
  subst hsnd
  have hst := runFrames_ok (fun _ => true) e b true (totalCount (walk t)) (walk t)
    ⟨0, 0, [], []⟩ st1 hpair
  subst hst
  have htot := totalCount_eq (walk t)
  have hrun : upload_to_native_imagestore (fun _ => true) e t b true =
      (⟨totalCount (walk t), totalCount (walk t), okTrace e b (walk t),
        framesOutput true (totalCount (walk t)) 0 (walk t) ++ [completeLine]⟩, true) := by
    rw [upload_to_native_imagestore]
    simp only [hpair]
    simp
  rw [hrun]
  refine ⟨rfl, ?_, ?_, walk_length_pos t, ?_, htot, ?_⟩
  · simpa using countFile_okTrace e b (walk t)
  · simpa using countMarker_okTrace e b (walk t)
  · simpa using htot
  · have hne : walk t ≠ [] := by
      cases t with
      | node fs ds => rw [walk]; simp
    obtain ⟨p, hp⟩ := framesOutput_getLast (totalCount (walk t)) (walk t) 0 hne
    refine ⟨p, ?_⟩
    simp only [List.dropLast_concat]
    rw [hp]
    simp [htot]

/-- C5: For every PUT issued by the native-store transfer (any response
pattern, progress on or off), the request URL handed to `urlunparse` is
the configured endpoint's component list with its path component
(index 2) replaced by `ImageStore/{basename}/{relativePath}/{name}` —
forward-slash separated — and its query component (index 4) replaced
with exactly `api-version=6.1`; the scheme, netloc, params and fragment
components are unchanged.  Empty-bodied PUTs are exactly the `_.dir`
markers. -/
theorem c5_put_url_components (oracle : Nat → Bool) (e : Url) (t : Tree) (b : String) (sp : Bool) :
    ∀ ev ∈ (upload_to_native_imagestore oracle e t b sp).1.trace,
      ev.url = [e.scheme, e.netloc, urlPath b ev.rel ev.name, e.params, "api-version=6.1",
        e.fragment] ∧
      (ev.body = none → ev.name = "_.dir") := by
  intro ev hev
  exact shape_trace oracle e t b sp ev hev

/-- Witness for C5 at a concrete input: the root marker PUT of a
successful transfer of `wTree2`. -/
theorem c5_witness :
    (markerEvOf wUrl "pkg" []).url =
      [wUrl.scheme, wUrl.netloc, urlPath "pkg" (markerEvOf wUrl "pkg" []).rel
        (markerEvOf wUrl "pkg" []).name, wUrl.params, "api-version=6.1", wUrl.fragment] ∧
    ((markerEvOf wUrl "pkg" []).body = none → (markerEvOf wUrl "pkg" []).name = "_.dir") :=
  c5_put_url_components (fun _ => true) wUrl wTree2 "pkg" false (markerEvOf wUrl "pkg" [])
    (by decide)

/-! ## Destination resolution claims -/

/-- If the pattern occurs somewhere, there is a suffix after its first
occurrence. -/
theorem afterFirst_isSome_of_contains {pat l : List Char} (h : containsL pat l = true) :
    (afterFirst pat l).isSome = true := by
  induction l with
  | nil => rw [containsL] at h; rw [afterFirst]; exact h
  | cons c cs ih =>
    rw [containsL] at h
    rw [afterFirst]
    cases hm : matchHead pat (c :: cs) with
    | some rest => rfl
    | none =>
      rw [hm] at h
      simp at h
      exact ih h

/-- If `pat` occurs in `s`, Python's `s.split(pat)[1]` is defined. -/
theorem pySplit1_isSome_of_pyContains {s pat : String} (h : pyContains s pat = true) :
    ∃ r, pySplit1 s pat = some r := by
  rw [pyContains] at h
  have := afterFirst_isSome_of_contains h
  obtain ⟨x, hx⟩ := Option.isSome_iff_exists.mp this
  exact ⟨String.mk (upToNext pat.toList x), by rw [pySplit1, split1, hx]; rfl⟩

/-- C3 counterexample: for a connection string in which `file:` occurs
twice, the resolver returns the segment between the two occurrences,
not the substring following the marker as the claim states. -/
theorem c3_counterexample :
    path_from_imagestore_string (some "file:afile:b") = some "a" ∧
    specRootFollowingMarker "file:afile:b" = "afile:b" ∧
    ¬(("a" : String) = "afile:b") := by
  refine ⟨by decide, by decide, by decide⟩

/-- C3 (amended): destination dispatch of `upload`.  A connection string
containing `file:` selects the file-share transfer whose root is the
segment of the string strictly between the first occurrence of `file:`
and the next occurrence (to the end when there is no second occurrence),
i.e. Python's `split('file:')[1]`; the destination passed to the
transfer is that root joined with the package basename.  The exact
string `fabric:ImageStore` selects the native-store transfer, and every
other string fails with the unsupported-destination error.  (Stated for
a valid package directory and a non-conflicting trust configuration,
which the dispatch requires to be reached.) -/
theorem c3_dispatch (pathArg : String) (t : Tree) (cfg : Config) (oracle : Nat → Bool)
    (s : String) (sp : Bool)
    (hc : (cfg.no_verify && cfg.ca_cert_info.isSome) = false) :
    (pyContains s "file:" = true →
      ∃ r, pySplit1 s "file:" = some r ∧
        upload pathArg (some t) cfg oracle s sp =
          .fileshareDone (osJoin r (os_basename pathArg))
            (upload_to_fileshare pathArg t (osJoin r (os_basename pathArg)) sp)) ∧
    (s = "fabric:ImageStore" →
      upload pathArg (some t) cfg oracle s sp =
        (match upload_to_native_imagestore oracle cfg.endpoint t (os_basename pathArg) sp with
         | (st, true) => .nativeDone st
         | (st, false) => .nativeFailed st)) ∧
    (pyContains s "file:" = false → ¬(s = "fabric:ImageStore") →
      upload pathArg (some t) cfg oracle s sp =
        .cliError "Unsupported image store connection string") := by
  refine ⟨?_, ?_, ?_⟩
  · intro hf
    obtain ⟨r, hr⟩ := pySplit1_isSome_of_pyContains hf
    have hne : ¬(s = "") := by
      intro he
      subst he
      exact absurd hf (by decide)
    refine ⟨r, hr, ?_⟩
    rw [upload]
    simp [hc, hf, path_from_imagestore_string, hne, hr]
  · intro hs
    subst hs
    have hf : pyContains "fabric:ImageStore" "file:" = false := by decide
    rw [upload]
    simp [hc, hf]
  · intro hf hs
    rw [upload]
    simp [hc, hf, hs]

/-- Witness for C3 at a concrete input: `file:/mnt` resolves to the
file-share transfer rooted at `/mnt`, destination `/mnt/pkg`. -/
theorem c3_witness :
    ∃ r, pySplit1 "file:/mnt" "file:" = some r ∧
      upload "/tmp/pkg" (some wTree2) wCfg (fun _ => true) "file:/mnt" false =
        .fileshareDone (osJoin r (os_basename "/tmp/pkg"))
          (upload_to_fileshare "/tmp/pkg" wTree2 (osJoin r (os_basename "/tmp/pkg")) false) :=
  (c3_dispatch "/tmp/pkg" wTree2 wCfg (fun _ => true) "file:/mnt" false rfl).1 (by decide)

/-- C4: evaluation at a failing input.  The claim says every copied
file's destination equals the destination root joined with the file's
path relative to the source; the code computes the relative path with
`root.replace(source, '')`, which deletes every occurrence of the source
string.  For source `/p` and its subdirectory `x/p` (walk root
`/p/x/p`), the file `f` is copied to `/d/x/f` instead of
`/d/x/p/f` — exactly one copy per file still happens, but the
destination tree is not a mirror of the source. -/
theorem c4_code_bug_eval :
    (upload_to_fileshare "/p" bugTree "/d" false).copies = [⟨"/p/x/p/f", "/d/x/f", "BYTES"⟩] ∧
    (upload_to_fileshare "/p" bugTree "/d" false).copies.length = filesCount (walk bugTree) ∧
    osJoin "/d" (joinRel ["x", "p"] "f") = "/d/x/p/f" ∧
    ¬(("/d/x/f" : String) = "/d/x/p/f") := by
  refine ⟨by decide, by decide, by decide, by decide⟩

/-! ## Orchestrator error-handling claims -/

/-- C8 counterexample: with conflicting trust settings AND a package
path that is not an existing directory, `upload` fails with the
invalid-path error, not the configuration-conflict error — path
validation runs first. -/
theorem c8_counterexample :
    upload "/nope" none wCfgConflict (fun _ => true) "fabric:ImageStore" false =
      .invalidPath "Invalid path to application directory: /nope" ∧
    ¬(upload "/nope" none wCfgConflict (fun _ => true) "fabric:ImageStore" false =
      .cliError "Cannot specify both CA cert info and no verify") := by
  refine ⟨by decide, by decide⟩

/-- C8 (amended): for every upload invocation whose package path
resolves to an existing directory and whose configuration specifies both
skip-verification and an explicit CA bundle, the operation fails with
the configuration-conflict error, before any file copy or HTTP request
(the result carries no transfer at all); this holds for every
destination string, including unsupported ones, because the conflict
check precedes the dispatch. -/
theorem c8_conflict_aborts (pathArg : String) (t : Tree) (cfg : Config) (oracle : Nat → Bool)
    (s : String) (sp : Bool)
    (h1 : cfg.no_verify = true) (h2 : cfg.ca_cert_info.isSome = true) :
    upload pathArg (some t) cfg oracle s sp =
      .cliError "Cannot specify both CA cert info and no verify" := by
  rw [upload]
  simp [h1, h2]

/-- Witness for C8 at a concrete input. -/
theorem c8_witness :
    upload "/tmp/pkg" (some wTree2) wCfgConflict (fun _ => true) "xyz" false =
      .cliError "Cannot specify both CA cert info and no verify" :=
  c8_conflict_aborts "/tmp/pkg" wTree2 wCfgConflict (fun _ => true) "xyz" false rfl rfl

/-- C10: for every connection string that is `None`, empty, or lacks the
`file:` marker, `path_from_imagestore_string` returns the Python value
`False` (modelled `none`) rather than raising; and the
unsupported-destination `CLIError` arises only from `upload`'s dispatch,
which raises it exactly for strings without `file:` that differ from the
`fabric:ImageStore` sentinel. -/
theorem c10_resolver_returns_false (o : Option String) (pathArg : String) (t : Tree)
    (cfg : Config) (oracle : Nat → Bool) (s : String) (sp : Bool) :
    ((o = none ∨ o = some "" ∨ (∀ str, o = some str → pyContains str "file:" = false)) →
      path_from_imagestore_string o = none) ∧
    (upload pathArg (some t) cfg oracle s sp =
        .cliError "Unsupported image store connection string" →
      pyContains s "file:" = false ∧ ¬(s = "fabric:ImageStore")) := by
  constructor
  · intro h
    rcases h with h | h | h
    · subst h; rfl
    · subst h; rfl
    · cases o with
      | none => rfl
      | some str =>
        have hf := h str rfl
        rw [path_from_imagestore_string]
        simp [hf]
  · intro h
    rw [upload] at h
    by_cases hc : (cfg.no_verify && cfg.ca_cert_info.isSome) = true
    · simp [hc] at h
    · simp only [hc] at h
      by_cases hf : pyContains s "file:" = true
      · simp only [hf] at h
        simp at h
        cases hres : path_from_imagestore_string (some s) with
        | some dest => rw [hres] at h; exact absurd h (by simp)
        | none => rw [hres] at h; exact absurd h (by simp)
      · have hf2 : pyContains s "file:" = false := by
          cases hx : pyContains s "file:" with
          | true => exact absurd hx hf
          | false => rfl
        by_cases hs : s = "fabric:ImageStore"
        · subst hs
          have hff : pyContains "fabric:ImageStore" "file:" = false := by decide
          simp only [hff] at h
          simp at h
          cases hnat : upload_to_native_imagestore oracle cfg.endpoint t (os_basename pathArg) sp with
          | mk st ok =>
            rw [hnat] at h
            cases ok with
            | true => exact absurd h (by simp)
            | false => exact absurd h (by simp)
        · exact ⟨hf2, hs⟩

/-- Witness for C10 at concrete inputs: a marker-free string resolves to
`False`, and the unsupported error pins the dispatch conditions. -/
theorem c10_witness :
    path_from_imagestore_string (some "abc") = none ∧
    (pyContains "xyz" "file:" = false ∧ ¬(("xyz" : String) = "fabric:ImageStore")) :=
  ⟨(c10_resolver_returns_false (some "abc") "/tmp/pkg" wTree2 wCfg (fun _ => true) "xyz"
      false).1
    (Or.inr (Or.inr (fun str hstr => by cases hstr; decide))),
   (c10_resolver_returns_false (some "abc") "/tmp/pkg" wTree2 wCfg (fun _ => true) "xyz"
      false).2 (by decide)⟩

/-! ## Provisioning claims -/

/-- C6: provision request building validates in order: an empty (or
absent) kind fails naming `--provision-kind`; kind `ImageStorePath` with
an empty build path fails naming `--application-type-build-path`, and
otherwise builds the `ImageStorePath` variant; kind `ExternalStore` with
any of the three parameters empty fails naming all three, and otherwise
builds the `ExternalStore` variant; any other kind fails naming the two
valid choices. -/
theorem c6_provision_validation (pk : String) (af : Bool) (bp uri nm ver : Option String) :
    (pk = "" → provision_application_type pk af bp uri nm ver =
      .error "Missing required parameter --provision-kind.") ∧
    (pk = "ImageStorePath" →
      (pyFalsy bp = true → provision_application_type pk af bp uri nm ver =
        .error "Missing required parameter --application-type-build-path.") ∧
      (pyFalsy bp = false → provision_application_type pk af bp uri nm ver =
        .ok (.imageStorePath af (bp.getD "")))) ∧
    (pk = "ExternalStore" →
      ((pyFalsy uri || pyFalsy nm || pyFalsy ver) = true →
        provision_application_type pk af bp uri nm ver =
          .error "Missing required parameters. The following are required: --application-package-download-uri, --application-type-name, --application-type-version.") ∧
      ((pyFalsy uri || pyFalsy nm || pyFalsy ver) = false →
        provision_application_type pk af bp uri nm ver =
          .ok (.externalStore af (uri.getD "") (nm.getD "") (ver.getD "")))) ∧
    (¬(pk = "") → ¬(pk = "ImageStorePath") → ¬(pk = "ExternalStore") →
      provision_application_type pk af bp uri nm ver =
        .error "Parameter --provision-kind has an incorrect value. Choose from the following: ImageStorePath, ExternalStore.") := by
  refine ⟨?_, ?_, ?_, ?_⟩
  · intro h
    subst h
    rfl
  · intro h
    subst h
    constructor
    · intro hb
      rw [provision_application_type]
      simp [hb]
    · intro hb
      rw [provision_application_type]
      simp [hb]
  · intro h
    subst h
    constructor
    · intro hb
      rw [provision_application_type]
      simp only [hb]
      simp
    · intro hb
      rw [provision_application_type]
      simp only [hb]
      simp
  · intro h1 h2 h3
    rw [provision_application_type]
    simp [h1, h2, h3]

/-- Witness for C6 at a concrete input: `ExternalStore` with a missing
download URI fails naming all three required parameters. -/
theorem c6_witness :
    provision_application_type "ExternalStore" true none (some "n") (some "v") none =
      .error "Missing required parameters. The following are required: --application-package-download-uri, --application-type-name, --application-type-version." :=
  ((c6_provision_validation "ExternalStore" true none (some "n") (some "v") none).2.2.1
    rfl).1 (by decide)

/-- C7: with validation passed (the request built), the provisioning
invocation returns without raising exactly when the HTTP status is 200
or 202; every other status raises the fabric error carrying the server's
response (status and error body). -/
theorem c7_invoke_status (pk : String) (af : Bool) (bp uri nm ver : Option String)
    (resp : HttpResponse) (desc : ProvisionDescription)
    (hb : provision_application_type pk af bp uri nm ver = .ok desc) :
    (provision_full pk af bp uri nm ver resp = .ok () ↔
      (resp.status_code = 200 ∨ resp.status_code = 202)) ∧
    (¬(resp.status_code = 200 ∨ resp.status_code = 202) →
      provision_full pk af bp uri nm ver resp = .error (.fabric resp)) := by
  rw [provision_full]
  rw [hb]
  rw [provision_send_check]
  by_cases h : resp.status_code = 200 ∨ resp.status_code = 202
  · have hmem : resp.status_code ∈ [200, 202] := by
      rcases h with h | h
      · rw [h]; simp
      · rw [h]; simp
    rw [if_neg (not_not.mpr hmem)]
    constructor
    · simp [h]
    · intro hnot
      exact absurd h hnot
  · have hmem : ¬(resp.status_code ∈ [200, 202]) := by
      simpa using h
    rw [if_pos hmem]
    constructor
    · constructor
      · intro hcontra
        exact absurd hcontra (by simp)
      · intro hcontra
        exact absurd hcontra h
    · intro _
      rfl

/-- Witness for C7 at a concrete input: a valid `ImageStorePath` request
against a 500 response raises the fabric error with the server body. -/
theorem c7_witness :
    provision_full "ImageStorePath" true (some "pkg") none none none ⟨500, "boom"⟩ =
      .error (.fabric ⟨500, "boom"⟩) :=
  (c7_invoke_status "ImageStorePath" true (some "pkg") none none none ⟨500, "boom"⟩
    (.imageStorePath true "pkg") rfl).2 (by decide)

/-- C9: for every call of the progress reporter with reporting enabled,
exactly one line of the form `[current/total] files, relativePath` is
written, it goes to the diagnostic stream (never the primary output
stream), and with reporting disabled nothing at all is written. -/
theorem c9_print_progress (c tot : Nat) (p : String) (b : Bool) :
    print_progress c tot p true =
      [⟨OutStream.stderr, "[" ++ Nat.repr c ++ "/" ++ Nat.repr tot ++ "] files, " ++ p⟩] ∧
    print_progress c tot p false = [] ∧
    (print_progress c tot p b).all isStderrLine = true := by
  refine ⟨rfl, rfl, ?_⟩
  cases b with
  | true => rw [print_progress]; simp [isStderrLine]
  | false => rfl

end Sfctl
